import Mathlib

/-!
# Verification of the AO wallet-kit connection manager

A shallow embedding of the wallet-kit source (the `WalletManager` class, the
raw-signer normalization `createAoSigner`, the `getState` snapshot and the
observer notification discipline), with theorems settling the specified
properties against these definitions.

External collaborators — the wallet-strategy backends and the browser
`localStorage` store — are modelled by explicit environments giving the
outcome (normal result or thrown error) of each outside call an operation
performs, so that each manager method becomes a pure function from its
environment and the pre-state to its result and post-state.
-/

namespace AoWalletKit

/-- A thrown JavaScript error, carried opaquely by its message. -/
abbrev Err := String

/-- A live strategy instance: its stable string identifier together with an
instantiation counter value that models JavaScript object identity (two
separate `new` calls always produce distinct `inst` values). -/
structure StrategyRef where
  id : String
  inst : Nat
deriving DecidableEq, Repr

/-- The manager's connection state record
(`WalletConnectionState` in the source): `{connected, address, publicKey,
permissions, strategy}`.  Nullable fields become `Option`. -/
structure WalletConnectionState where
  connected : Bool
  address : Option String
  publicKey : Option String
  permissions : List String
  strategy : Option StrategyRef
deriving DecidableEq, Repr

/-- The two session-cache entries in `localStorage`:
`STORAGE_KEYS.STRATEGY` and `STORAGE_KEYS.ADDRESS`.  `none` means the key is
absent from the store. -/
structure Cache where
  strategy : Option String
  address : Option String
deriving DecidableEq, Repr

/-- Outcome of the storage *writes* a single manager operation performs.
`localStorage.setItem` / `removeItem` may throw (the source catches and logs
this in `cacheStrategy` / `cacheAddress`); a `false` flag means the write for
that key threw, leaving the store unchanged. -/
structure StorageEnv where
  strategyWriteOk : Bool
  addressWriteOk : Bool
deriving DecidableEq, Repr

/-- Outcome of the storage *reads* an operation performs:
`localStorage.getItem` for each of the two session keys, each either
returning the stored value (`none` = key absent) or throwing. -/
structure StorageReadEnv where
  readStrategy : Except Err (Option String)
  readAddress : Except Err (Option String)

/-- Outcomes of the calls an operation may make on the active strategy
backend: each is either a normal result or a thrown error.  `hasReconnect`
models the runtime presence probe `this.currentStrategy?.reconnect`. -/
structure StrategyCallEnv where
  connectRes : Except Err Unit
  addrRes : Except Err String
  pkRes : Except Err String
  permsRes : Except Err (List String)
  disconnectRes : Except Err Unit
  hasReconnect : Bool
  reconnectRes : Except Err Unit

/-- JavaScript string truthiness for a nullable string: `null` and the empty
string are falsy, every other string truthy. -/
def truthy : Option String → Bool
  | none => false
  | some s => !(s == "")

/-- Lookup in the strategy registry (JS `Map.get`): first entry with a
matching key. -/
def mapGet (m : List (String × StrategyRef)) (k : String) : Option StrategyRef :=
  match m with
  | [] => none
  | (k', v) :: rest => if k' == k then some v else mapGet rest k

/-- Insertion into the strategy registry (JS `Map.set`): overwrite in place
when the key is present, append otherwise. -/
def mapSet (m : List (String × StrategyRef)) (k : String) (v : StrategyRef) :
    List (String × StrategyRef) :=
  match m with
  | [] => [(k, v)]
  | (k', v') :: rest => if k' == k then (k, v) :: rest else (k', v') :: mapSet rest k v

/-- `strategyId.startsWith('wauth-')`, computed structurally on the
character list of the string. -/
def startsWithWauth (s : String) : Bool :=
  match s.data with
  | 'w' :: 'a' :: 'u' :: 't' :: 'h' :: '-' :: _ => true
  | _ => false

/-- `strategyId.replace('wauth-', '')` under the guard
`strategyId.startsWith('wauth-')`: JS `replace` with a string pattern removes
the first occurrence, which under the guard is exactly the 6-character
prefix. -/
def stripWauth (s : String) : String := ⟨s.data.drop 6⟩

/-- The `WalletManager`'s own mutable fields: the registry (with the
instantiation counter realising object identity), the active strategy
reference, the connection state, and the subscribed listeners (by identity
token, in subscription order). -/
structure WalletManager where
  strategies : List (String × StrategyRef)
  nextInst : Nat
  currentStrategy : Option StrategyRef
  state : WalletConnectionState
  stateListeners : List Nat
deriving DecidableEq, Repr

/-- The disconnected default connection state (the initializer of
`this.state`). -/
def disconnectedState : WalletConnectionState :=
  { connected := false, address := none, publicKey := none,
    permissions := [], strategy := none }

/-- `initializeStrategies`: the two non-WAuth strategies are instantiated
eagerly and registered under their ids; instance numbers 0 and 1 are
consumed, WAuth strategies are created lazily later. -/
def freshManager : WalletManager :=
  { strategies := mapSet (mapSet [] "arweave-native" ⟨"arweave-native", 0⟩)
      "metamask" ⟨"metamask", 1⟩,
    nextInst := 2,
    currentStrategy := none,
    state := disconnectedState,
    stateListeners := [] }

/-- `getOrCreateWAuthStrategy(provider)`: lazy singleton-per-id creation of a
WAuth strategy; returns the registered instance, creating and registering a
fresh one only when the id is absent. -/
def WalletManager.getOrCreateWAuthStrategy (m : WalletManager) (provider : String) :
    StrategyRef × WalletManager :=
  match mapGet m.strategies ("wauth-" ++ provider) with
  | some s => (s, m)
  | none =>
    (⟨"wauth-" ++ provider, m.nextInst⟩,
     { m with strategies := mapSet m.strategies ("wauth-" ++ provider)
                 ⟨"wauth-" ++ provider, m.nextInst⟩,
              nextInst := m.nextInst + 1 })

/-- `setStrategy(strategyId)`: resolve a `wauth-` id through the lazy
creator, any other id through the registry; on success set the active
reference and merge `{ strategy }` into the state, returning `true`; on a
miss, return `false` without any change. -/
def WalletManager.setStrategy (m : WalletManager) (strategyId : String) :
    Bool × WalletManager :=
  if startsWithWauth strategyId then
    (true, { (m.getOrCreateWAuthStrategy (stripWauth strategyId)).2 with
               currentStrategy := some (m.getOrCreateWAuthStrategy (stripWauth strategyId)).1,
               state := { (m.getOrCreateWAuthStrategy (stripWauth strategyId)).2.state with
                 strategy := some (m.getOrCreateWAuthStrategy (stripWauth strategyId)).1 } })
  else
    match mapGet m.strategies strategyId with
    | some strat =>
      (true, { m with currentStrategy := some strat,
                      state := { m.state with strategy := some strat } })
    | none => (false, m)

/-- `loadCachedStrategy()` (run by the constructor): read the cached strategy
id (any thrown read is caught and ignored); a `wauth-` id is lazily created,
any other id resolved from the registry; on a hit the active reference is set
and `{ strategy }` merged into the state. -/
def WalletManager.loadCachedStrategy (renv : StorageReadEnv) (m : WalletManager) :
    WalletManager :=
  match renv.readStrategy with
  | .error _ => m
  | .ok none => m
  | .ok (some cid) =>
    if cid == "" then m
    else if startsWithWauth cid then
      { (m.getOrCreateWAuthStrategy (stripWauth cid)).2 with
          currentStrategy := some (m.getOrCreateWAuthStrategy (stripWauth cid)).1,
          state := { (m.getOrCreateWAuthStrategy (stripWauth cid)).2.state with
            strategy := some (m.getOrCreateWAuthStrategy (stripWauth cid)).1 } }
    else
      match mapGet m.strategies cid with
      | some strat =>
        { m with currentStrategy := some strat,
                 state := { m.state with strategy := some strat } }
      | none => m

/-- `cacheStrategy(strategyId)`: a truthy id is written under the strategy
key, a falsy one removes the key; a thrown storage write is caught and
logged, leaving the store unchanged. -/
def cacheStrategy (senv : StorageEnv) (c : Cache) (strategyId : Option String) : Cache :=
  if senv.strategyWriteOk then
    if truthy strategyId then { c with strategy := strategyId }
    else { c with strategy := none }
  else c

/-- `cacheAddress(address)`: same discipline for the address key. -/
def cacheAddress (senv : StorageEnv) (c : Cache) (address : Option String) : Cache :=
  if senv.addressWriteOk then
    if truthy address then { c with address := address }
    else { c with address := none }
  else c

/-- `getCachedAddress()`: protected storage read — a thrown read resolves to
`null`. -/
def getCachedAddress (renv : StorageReadEnv) : Option String :=
  match renv.readAddress with
  | .error _ => none
  | .ok v => v

/-- A manager together with the external session store it talks to. -/
structure MgrWorld where
  mgr : WalletManager
  cache : Cache
deriving DecidableEq, Repr

/-- The error thrown when `connect`/`sign` find no active strategy. -/
def errNoStrategy : Err := "No wallet strategy selected"

/-- `connect(permissions?)`: requires an active strategy; drives the backend
through `connect`, `getActiveAddress`, `getActivePublicKey`,
`getPermissions` in order; on success replaces the state wholesale and
writes both cache entries; the catch block rethrows any error unchanged, so
a failing step leaves the world exactly as it was. -/
def WalletManager.connectOp (env : StrategyCallEnv) (senv : StorageEnv)
    (w : MgrWorld) : Except Err Unit × MgrWorld :=
  match w.mgr.currentStrategy with
  | none => (.error errNoStrategy, w)
  | some strat =>
    match env.connectRes with
    | .error e => (.error e, w)
    | .ok _ =>
      match env.addrRes with
      | .error e => (.error e, w)
      | .ok address =>
        match env.pkRes with
        | .error e => (.error e, w)
        | .ok publicKey =>
          match env.permsRes with
          | .error e => (.error e, w)
          | .ok walletPermissions =>
            (.ok (),
             { mgr := { w.mgr with state :=
                 { connected := true, address := some address,
                   publicKey := some publicKey, permissions := walletPermissions,
                   strategy := some strat } },
               cache := cacheAddress senv
                 (cacheStrategy senv w.cache (some strat.id)) (some address) })

/-- The first error raised along `connect`'s four backend steps, in source
order, if any. -/
def connectFirstError (env : StrategyCallEnv) : Option Err :=
  match env.connectRes with
  | .error e => some e
  | .ok _ =>
    match env.addrRes with
    | .error e => some e
    | .ok _ =>
      match env.pkRes with
      | .error e => some e
      | .ok _ =>
        match env.permsRes with
        | .error e => some e
        | .ok _ => none

/-- `disconnect()`: no-op without an active strategy.  With one, the strategy
`disconnect` call comes *first inside the try block*; only when it returns
normally are the reference cleared, the state reset and the cache entries
removed — when it throws, the catch block rethrows and none of those steps
run. -/
def WalletManager.disconnectOp (env : StrategyCallEnv) (senv : StorageEnv)
    (w : MgrWorld) : Except Err Unit × MgrWorld :=
  match w.mgr.currentStrategy with
  | none => (.ok (), w)
  | some _ =>
    match env.disconnectRes with
    | .error e => (.error e, w)
    | .ok _ =>
      (.ok (),
       { mgr := { w.mgr with currentStrategy := none, state := disconnectedState },
         cache := cacheAddress senv (cacheStrategy senv w.cache none) none })

/-- The WAuth probe inside `autoReconnect`: after the grace delay, probe
`getActiveAddress`; on a truthy address, sync the full state from
`getActivePublicKey` and `getPermissions` (a throw anywhere in this inner
block is caught and yields `none`, falling through to the normal reconnect
path). -/
def autoReconnectWauthProbe (probe : StrategyCallEnv) (m1 : WalletManager) :
    Option WalletManager :=
  match probe.addrRes with
  | .error _ => none
  | .ok address =>
    if address == "" then none
    else
      match probe.pkRes with
      | .error _ => none
      | .ok publicKey =>
        match probe.permsRes with
        | .error _ => none
        | .ok permissions =>
          some { m1 with state :=
            { connected := true, address := some address,
              publicKey := some publicKey, permissions := permissions,
              strategy := m1.currentStrategy } }

/-- The tail of `autoReconnect`: prefer the strategy's own `reconnect` when
present, else fall back to a full `connect()`; the outer catch converts any
throw into `false`. -/
def autoReconnectFallback (cenv : StrategyCallEnv) (senv : StorageEnv)
    (w : MgrWorld) : Except Err Bool × MgrWorld :=
  if cenv.hasReconnect then
    match cenv.reconnectRes with
    | .error _ => (.ok false, w)
    | .ok _ => (.ok true, w)
  else
    match WalletManager.connectOp cenv senv w with
    | (.error _, w2) => (.ok false, w2)
    | (.ok _, w2) => (.ok true, w2)

/-- The remainder of `autoReconnect` once the cached hints passed their
truthiness check: `success`/`m1` are the result of re-selecting the cached
strategy (`!success` throws into the outer catch, so it resolves to
`false`); `wauth-` ids go through the grace-delay probe first; otherwise
(or when the probe finds nothing) the reconnect/connect fallback runs. -/
def autoReconnectTail (cid : String) (probe cenv : StrategyCallEnv)
    (senv : StorageEnv) (cache : Cache) (success : Bool) (m1 : WalletManager) :
    Except Err Bool × MgrWorld :=
  if success then
    if startsWithWauth cid then
      match autoReconnectWauthProbe probe m1 with
      | some m2 => (.ok true, { mgr := m2, cache := cache })
      | none => autoReconnectFallback cenv senv { mgr := m1, cache := cache }
    else
      autoReconnectFallback cenv senv { mgr := m1, cache := cache }
  else
    (.ok false, { mgr := m1, cache := cache })

/-- `autoReconnect()`: the read of the cached strategy key sits *above* the
try block, so a throwing `localStorage.getItem` there propagates as a
rejection; `getCachedAddress` is protected.  With both hints truthy the
cached strategy is re-selected and `autoReconnectTail` runs; everything
inside the try resolves to a boolean. -/
def WalletManager.autoReconnectOp (renv : StorageReadEnv)
    (probe cenv : StrategyCallEnv) (senv : StorageEnv) (w : MgrWorld) :
    Except Err Bool × MgrWorld :=
  match renv.readStrategy with
  | .error e => (.error e, w)
  | .ok cachedStrategyId =>
    match cachedStrategyId, getCachedAddress renv with
    | some cid, some cad =>
      if cid == "" || cad == "" then (.ok false, w)
      else
        autoReconnectTail cid probe cenv senv w.cache
          (w.mgr.setStrategy cid).1 (w.mgr.setStrategy cid).2
    | _, _ => (.ok false, w)

/-- One step of the manager's public state-changing interface, carrying the
environment (backend and storage outcomes) the step runs against. -/
inductive Step where
  | set (strategyId : String)
  | conn (env : StrategyCallEnv) (senv : StorageEnv)
  | disc (env : StrategyCallEnv) (senv : StorageEnv)
  | auto (renv : StorageReadEnv) (probe cenv : StrategyCallEnv) (senv : StorageEnv)

/-- Run one step, discarding the value returned to the caller. -/
def runStep (s : Step) (w : MgrWorld) : MgrWorld :=
  match s with
  | .set sid => { w with mgr := (w.mgr.setStrategy sid).2 }
  | .conn env senv => (WalletManager.connectOp env senv w).2
  | .disc env senv => (WalletManager.disconnectOp env senv w).2
  | .auto renv probe cenv senv =>
    (WalletManager.autoReconnectOp renv probe cenv senv w).2

/-- Run a sequence of steps. -/
def runSteps (steps : List Step) (w : MgrWorld) : MgrWorld :=
  steps.foldl (fun w s => runStep s w) w

/-- The world produced by the constructor: registries initialised, then
`loadCachedStrategy` run against the pre-existing store. -/
def initialWorld (renv : StorageReadEnv) (c : Cache) : MgrWorld :=
  { mgr := WalletManager.loadCachedStrategy renv freshManager, cache := c }

/-- The connection-state invariant: a connected state carries an address. -/
def stateInv (s : WalletConnectionState) : Prop :=
  s.connected = true → s.address ≠ none

/-- The guard of the `AoWalletProvider` effect (src/src/hooks.ts 411-416)
that forces a disconnect: `state.connected && !state.address`. -/
def fixConnectionTriggers (s : WalletConnectionState) : Bool :=
  s.connected && !(truthy s.address)

/-! ## Observer notification (`onStateChange` / `updateState`)

Listeners are identified by tokens (`Nat`); a listener environment says
which listener, if any, a callback unsubscribes while it runs.  The
unsubscribe closure returned by `onStateChange` does
`indexOf` + `splice(index, 1)`: removal of the first occurrence, a no-op
when absent.  `updateState` notifies via `Array.prototype.forEach`, which
captures the length once and then visits each index that is still present
in the live array. -/

/-- The unsubscribe closure: remove the first occurrence if present. -/
def removeFirst (x : Nat) : List Nat → List Nat
  | [] => []
  | y :: ys => if y == x then ys else y :: removeFirst x ys

/-- The effect a visited listener's callback has on the live array: either
nothing, or the splice performed by the unsubscribe closure it invokes. -/
def spliceStep (act : Nat → Option Nat) (id : Nat) (arr : List Nat) : List Nat :=
  match act id with
  | none => arr
  | some rid => removeFirst rid arr

/-- `forEach` over the live listener array: `k` is the current index, the
last argument counts indices left up to the initially captured length.  An
index beyond the current length (element spliced away) is skipped; a
visited listener is called (recorded in the first component) and its
callback may splice a listener out of the same array.  Returns the call
order and the final array. -/
def forEachAux (act : Nat → Option Nat) (arr : List Nat) (k : Nat) :
    Nat → List Nat × List Nat
  | 0 => ([], arr)
  | r + 1 =>
    if h : k < arr.length then
      ((arr.get ⟨k, h⟩) ::
         (forEachAux act (spliceStep act (arr.get ⟨k, h⟩) arr) (k + 1) r).1,
       (forEachAux act (spliceStep act (arr.get ⟨k, h⟩) arr) (k + 1) r).2)
    else
      forEachAux act arr (k + 1) r

/-- One `updateState` notification round:
`this.stateListeners.forEach(listener => listener(this.state))`.  Every
called listener receives the same freshly installed state. -/
def notifyListeners (act : Nat → Option Nat) (arr : List Nat) :
    List Nat × List Nat :=
  forEachAux act arr 0 arr.length

/-! ## Raw-signer normalization (`createAoSigner`, src/src/signer.ts) -/

/-- The runtime shape of a raw signer value.  Functions and plain objects
carry an identity token; the primitive shapes are the "unexpected" inputs
the source rejects. -/
inductive JsValue where
  | nullV
  | undefinedV
  | func (f : Nat)
  | obj (o : Nat)
  | str (s : String)
  | num (n : Int)
  | boolV (b : Bool)
deriving DecidableEq, Repr

/-- JavaScript falsiness of a raw-signer value (`!rawSigner`): `null`,
`undefined`, `''`, `0` and `false` are falsy; functions and objects are
always truthy. -/
def jsFalsy : JsValue → Bool
  | .nullV => true
  | .undefinedV => true
  | .func _ => false
  | .obj _ => false
  | .str s => s == ""
  | .num n => n == 0
  | .boolV b => !b

/-- The normalized result: no signer, the callable value itself (identity
preserved), or the `createDataItemSigner` adapter wrapped around an
object. -/
inductive SignerResult where
  | noSigner
  | direct (f : Nat)
  | wrapped (o : Nat)
deriving DecidableEq, Repr

/-- `createAoSigner(rawSigner)`: falsy input yields no signer; a function is
returned unchanged; an object is wrapped with `createDataItemSigner` (whose
throw, modelled by `wrapThrows`, is caught and yields no signer); any other
shape yields no signer. -/
def createAoSigner (wrapThrows : Nat → Bool) (rawSigner : JsValue) : SignerResult :=
  if jsFalsy rawSigner then .noSigner
  else
    match rawSigner with
    | .func f => .direct f
    | .obj o => if wrapThrows o then .noSigner else .wrapped o
    | _ => .noSigner

/-! ## Snapshot semantics of `getState` (a record heap)

`getState()` is `return { ...this.state }`.  To express the aliasing claim
we model connection-state records on an explicit heap of addressed records:
the manager's internal record lives at one address, the returned snapshot
is a freshly allocated record at a new address, and a field reassignment on
the snapshot is an overwrite at the snapshot's address. -/

/-- A heap of connection-state records: address to record, with an
allocation counter. -/
structure Heap where
  recs : List (Nat × WalletConnectionState)
  next : Nat

/-- Read a record binding list at an address (first binding wins). -/
def heapLookup (a : Nat) : List (Nat × WalletConnectionState) →
    Option WalletConnectionState
  | [] => none
  | (a', s) :: rest => if a' == a then some s else heapLookup a rest

/-- Read the record at an address. -/
def heapGet (h : Heap) (a : Nat) : Option WalletConnectionState :=
  heapLookup a h.recs

/-- Overwrite the record at an address (field reassignments on the object
stored there). -/
def heapSet (h : Heap) (a : Nat) (s : WalletConnectionState) : Heap :=
  ⟨(a, s) :: h.recs, h.next⟩

/-- `getState()`: allocate a fresh record at a fresh address, copying the
fields of the manager's internal record; the internal record is untouched. -/
def getStateH (h : Heap) (stateAddr : Nat) : Nat × Heap :=
  match heapGet h stateAddr with
  | none => (h.next, ⟨(h.next, disconnectedState) :: h.recs, h.next + 1⟩)
  | some s => (h.next, ⟨(h.next, s) :: h.recs, h.next + 1⟩)

/-- Heap well-formedness: every allocated address is below the counter. -/
def Heap.wf (h : Heap) : Prop :=
  ∀ p ∈ h.recs, p.1 < h.next

/-! ## Helper lemmas -/

theorem mapGet_mapSet_self (m : List (String × StrategyRef)) (k : String)
    (v : StrategyRef) : mapGet (mapSet m k v) k = some v := by
  induction m with
  | nil => simp [mapGet, mapSet]
  | cons p rest ih =>
    obtain ⟨k', v'⟩ := p
    by_cases h : k' == k
    · simp [mapGet, mapSet, h]
    · simp [mapGet, mapSet, h, ih]

theorem getOrCreate_state (m : WalletManager) (p : String) :
    (m.getOrCreateWAuthStrategy p).2.state = m.state := by
  unfold WalletManager.getOrCreateWAuthStrategy
  split <;> rfl

theorem getOrCreate_strategies_get (m : WalletManager) (p : String) :
    mapGet (m.getOrCreateWAuthStrategy p).2.strategies ("wauth-" ++ p) =
      some (m.getOrCreateWAuthStrategy p).1 := by
  unfold WalletManager.getOrCreateWAuthStrategy
  split
  · next s hs => exact hs
  · exact mapGet_mapSet_self ..

theorem setStrategy_state_frame (m : WalletManager) (sid : String) :
    ((m.setStrategy sid).2).state.connected = m.state.connected ∧
    ((m.setStrategy sid).2).state.address = m.state.address := by
  unfold WalletManager.setStrategy
  split
  · constructor <;> simp [getOrCreate_state]
  · split <;> simp

theorem setStrategy_inv (m : WalletManager) (sid : String)
    (h : stateInv m.state) : stateInv (m.setStrategy sid).2.state := by
  intro hc
  rw [(setStrategy_state_frame m sid).2]
  apply h
  rw [← (setStrategy_state_frame m sid).1]
  exact hc

theorem connectOp_inv (env : StrategyCallEnv) (senv : StorageEnv) (w : MgrWorld)
    (h : stateInv w.mgr.state) :
    stateInv (WalletManager.connectOp env senv w).2.mgr.state := by
  unfold WalletManager.connectOp
  split
  · exact h
  · split
    · exact h
    · split
      · exact h
      · split
        · exact h
        · split
          · exact h
          · intro _; simp

theorem disconnectOp_inv (env : StrategyCallEnv) (senv : StorageEnv) (w : MgrWorld)
    (h : stateInv w.mgr.state) :
    stateInv (WalletManager.disconnectOp env senv w).2.mgr.state := by
  unfold WalletManager.disconnectOp
  split
  · exact h
  · split
    · exact h
    · intro hc
      simp [disconnectedState] at hc

theorem wauthProbe_inv (probe : StrategyCallEnv) (m1 m2 : WalletManager)
    (h : autoReconnectWauthProbe probe m1 = some m2) : stateInv m2.state := by
  unfold autoReconnectWauthProbe at h
  split at h
  · exact absurd h (by simp)
  · split at h
    · exact absurd h (by simp)
    · split at h
      · exact absurd h (by simp)
      · split at h
        · exact absurd h (by simp)
        · rw [Option.some_inj] at h
          subst h
          intro _
          simp

theorem fallback_inv (cenv : StrategyCallEnv) (senv : StorageEnv) (w : MgrWorld)
    (h : stateInv w.mgr.state) :
    stateInv (autoReconnectFallback cenv senv w).2.mgr.state := by
  unfold autoReconnectFallback
  split
  · split
    · exact h
    · exact h
  · split
    · next w2 heq =>
      have := connectOp_inv cenv senv w h
      rw [heq] at this
      exact this
    · next w2 heq =>
      have := connectOp_inv cenv senv w h
      rw [heq] at this
      exact this

theorem autoReconnectTail_inv (cid : String) (probe cenv : StrategyCallEnv)
    (senv : StorageEnv) (cache : Cache) (success : Bool) (m1 : WalletManager)
    (h : stateInv m1.state) :
    stateInv (autoReconnectTail cid probe cenv senv cache success m1).2.mgr.state := by
  unfold autoReconnectTail
  split
  · split
    · split
      · exact wauthProbe_inv probe _ _ (by assumption)
      · exact fallback_inv _ _ _ h
    · exact fallback_inv _ _ _ h
  · exact h

theorem autoReconnectOp_inv (renv : StorageReadEnv) (probe cenv : StrategyCallEnv)
    (senv : StorageEnv) (w : MgrWorld) (h : stateInv w.mgr.state) :
    stateInv (WalletManager.autoReconnectOp renv probe cenv senv w).2.mgr.state := by
  unfold WalletManager.autoReconnectOp
  split
  · exact h
  · split
    · split
      · exact h
      · exact autoReconnectTail_inv _ _ _ _ _ _ _ (setStrategy_inv _ _ h)
    · exact h

theorem runStep_inv (s : Step) (w : MgrWorld) (h : stateInv w.mgr.state) :
    stateInv (runStep s w).mgr.state := by
  cases s with
  | set sid => exact setStrategy_inv _ _ h
  | conn env senv => exact connectOp_inv env senv w h
  | disc env senv => exact disconnectOp_inv env senv w h
  | auto renv probe cenv senv => exact autoReconnectOp_inv renv probe cenv senv w h

theorem runSteps_inv (steps : List Step) (w : MgrWorld) (h : stateInv w.mgr.state) :
    stateInv (runSteps steps w).mgr.state := by
  induction steps generalizing w with
  | nil => exact h
  | cons s rest ih => exact ih (runStep s w) (runStep_inv s w h)

theorem initialWorld_connected (renv : StorageReadEnv) (c : Cache) :
    (initialWorld renv c).mgr.state.connected = false := by
  unfold initialWorld WalletManager.loadCachedStrategy
  split
  · rfl
  · rfl
  · split
    · rfl
    · split
      · simp [getOrCreate_state, freshManager, disconnectedState]
      · split <;> simp [freshManager, disconnectedState]

/-! ## Claim theorems -/

/-- Claim C1: for every Manager state reachable by any sequence of
`setStrategy`, `connect`, `disconnect` and `autoReconnect` operations (from
a freshly constructed manager, under arbitrary backend and storage
behaviour), `connected = true` implies the address is non-null; and the
provider effect guard fires on any state with `connected` true and a null
address, forcing a disconnect. -/
theorem connected_implies_address_and_violation_triggers_disconnect :
    (∀ (renv : StorageReadEnv) (c : Cache) (steps : List Step),
      stateInv (runSteps steps (initialWorld renv c)).mgr.state) ∧
    (∀ s : WalletConnectionState, s.connected = true → s.address = none →
      fixConnectionTriggers s = true) := by
  constructor
  · intro renv c steps
    apply runSteps_inv
    intro hc
    rw [initialWorld_connected] at hc
    cases hc
  · intro s h1 h2
    simp [fixConnectionTriggers, truthy, h1, h2]

/-- Witness for C1 at a concrete step sequence and a concrete violating
state. -/
theorem connected_implies_address_witness :
    stateInv (runSteps [Step.set "metamask"]
      (initialWorld ⟨.ok none, .ok none⟩ ⟨none, none⟩)).mgr.state ∧
    fixConnectionTriggers
      { connected := true, address := none, publicKey := none,
        permissions := [], strategy := none } = true :=
  ⟨connected_implies_address_and_violation_triggers_disconnect.1 _ _ _,
   connected_implies_address_and_violation_triggers_disconnect.2 _ rfl rfl⟩

/-- Claim C2: when any of the four backend steps of `connect` throws (the
first error being `e`), `connect` rethrows exactly `e` and the whole world —
connection state, active strategy, and both cache entries — is exactly the
world before the call. -/
theorem connect_failure_is_atomic (env : StrategyCallEnv) (senv : StorageEnv)
    (w : MgrWorld) (strat : StrategyRef) (e : Err)
    (hs : w.mgr.currentStrategy = some strat)
    (he : connectFirstError env = some e) :
    WalletManager.connectOp env senv w = (.error e, w) := by
  unfold WalletManager.connectOp
  rw [hs]
  cases hc : env.connectRes with
  | error e1 =>
    simp only [connectFirstError, hc] at he
    rw [Option.some_inj] at he
    subst he
    rfl
  | ok _ =>
    cases ha : env.addrRes with
    | error e1 =>
      simp only [connectFirstError, hc, ha] at he
      rw [Option.some_inj] at he
      subst he
      rfl
    | ok a =>
      cases hp : env.pkRes with
      | error e1 =>
        simp only [connectFirstError, hc, ha, hp] at he
        rw [Option.some_inj] at he
        subst he
        rfl
      | ok pk =>
        cases hm : env.permsRes with
        | error e1 =>
          simp only [connectFirstError, hc, ha, hp, hm] at he
          rw [Option.some_inj] at he
          subst he
          rfl
        | ok perms =>
          simp only [connectFirstError, hc, ha, hp, hm] at he
          exact Option.noConfusion he

/-- The eagerly registered MetaMask strategy instance. -/
def stratMM : StrategyRef := ⟨"metamask", 1⟩

/-- A world with MetaMask active, connected, and a populated session cache. -/
def wConnected : MgrWorld :=
  { mgr := { freshManager with
      currentStrategy := some stratMM,
      state := { connected := true, address := some "addr1",
                 publicKey := some "pk1", permissions := ["ACCESS_ADDRESS"],
                 strategy := some stratMM } },
    cache := { strategy := some "metamask", address := some "addr1" } }

/-- A backend whose `connect` call throws. -/
def envConnectThrows : StrategyCallEnv :=
  { connectRes := .error "boom", addrRes := .ok "addr1", pkRes := .ok "pk1",
    permsRes := .ok [], disconnectRes := .ok (), hasReconnect := false,
    reconnectRes := .ok () }

/-- A backend whose calls all succeed. -/
def envAllOk : StrategyCallEnv :=
  { connectRes := .ok (), addrRes := .ok "addr1", pkRes := .ok "pk1",
    permsRes := .ok ["ACCESS_ADDRESS"], disconnectRes := .ok (),
    hasReconnect := false, reconnectRes := .ok () }

/-- A backend whose `disconnect` call throws. -/
def envDisconnectThrows : StrategyCallEnv :=
  { envAllOk with disconnectRes := .error "disconnect boom" }

/-- A storage layer whose writes succeed. -/
def senvOk : StorageEnv := ⟨true, true⟩

/-- Witness for C2 at a concrete world and a backend whose first step
throws. -/
theorem connect_failure_is_atomic_witness :
    WalletManager.connectOp envConnectThrows senvOk wConnected =
      (.error "boom", wConnected) :=
  connect_failure_is_atomic envConnectThrows senvOk wConnected stratMM "boom" rfl rfl

/-- Counterexample to claim C3 as stated: with an active strategy whose own
`disconnect` throws, `disconnect` does *not* clear the active strategy
reference, does *not* reset the ConnectionState, and does *not* remove the
cache entries — the catch block rethrows before any of those steps run.  So
"the local state reset and cache clearing are never skipped" is false on
the code. -/
theorem disconnect_not_unconditional_counterexample :
    (WalletManager.disconnectOp envDisconnectThrows senvOk wConnected).1 =
      .error "disconnect boom" ∧
    (WalletManager.disconnectOp envDisconnectThrows senvOk wConnected).2.mgr.currentStrategy =
      some stratMM ∧
    (WalletManager.disconnectOp envDisconnectThrows senvOk wConnected).2.mgr.state.connected =
      true ∧
    (WalletManager.disconnectOp envDisconnectThrows senvOk wConnected).2.cache =
      { strategy := some "metamask", address := some "addr1" } :=
  ⟨rfl, rfl, rfl, rfl⟩

/-- Claim C3 amended: with an active strategy, `disconnect` clears the
active strategy reference, resets the state to the disconnected default and
removes both cache entries when the strategy's own `disconnect` succeeds
(and the storage writes do not throw); when the strategy's `disconnect`
throws, the error is surfaced to the caller and the strategy reference, the
ConnectionState and the cache are all left unchanged. -/
theorem disconnect_clears_on_success_only (env : StrategyCallEnv)
    (senv : StorageEnv) (w : MgrWorld) (strat : StrategyRef)
    (hs : w.mgr.currentStrategy = some strat) :
    (∀ e, env.disconnectRes = .error e →
      WalletManager.disconnectOp env senv w = (.error e, w)) ∧
    (env.disconnectRes = .ok () → senv.strategyWriteOk = true →
      senv.addressWriteOk = true →
      WalletManager.disconnectOp env senv w =
        (.ok (),
         { mgr := { w.mgr with
                      currentStrategy := none,
                      state := disconnectedState },
           cache := { strategy := none, address := none } })) := by
  constructor
  · intro e he
    unfold WalletManager.disconnectOp
    rw [hs, he]
  · intro he h1 h2
    unfold WalletManager.disconnectOp
    rw [hs, he]
    simp [cacheStrategy, cacheAddress, truthy, h1, h2]

/-- Witness for the amended C3 at a concrete connected world whose backend
`disconnect` succeeds. -/
theorem disconnect_clears_on_success_only_witness :
    WalletManager.disconnectOp envAllOk senvOk wConnected =
      (.ok (),
       { mgr := { wConnected.mgr with
                    currentStrategy := none,
                    state := disconnectedState },
         cache := { strategy := none, address := none } }) :=
  (disconnect_clears_on_success_only envAllOk senvOk wConnected stratMM rfl).2
    rfl rfl rfl

theorem fallback_resolves_bool (cenv : StrategyCallEnv) (senv : StorageEnv)
    (w : MgrWorld) : ∃ b, (autoReconnectFallback cenv senv w).1 = .ok b := by
  unfold autoReconnectFallback
  split
  · split
    · exact ⟨false, rfl⟩
    · exact ⟨true, rfl⟩
  · split
    · exact ⟨false, rfl⟩
    · exact ⟨true, rfl⟩

theorem tail_resolves_bool (cid : String) (probe cenv : StrategyCallEnv)
    (senv : StorageEnv) (cache : Cache) (success : Bool) (m1 : WalletManager) :
    ∃ b, (autoReconnectTail cid probe cenv senv cache success m1).1 = .ok b := by
  unfold autoReconnectTail
  split
  · split
    · split
      · exact ⟨true, rfl⟩
      · exact fallback_resolves_bool ..
    · exact fallback_resolves_bool ..
  · exact ⟨false, rfl⟩

/-- Claim C4: the spec says `autoReconnect` never throws or rejects and that
every failure path resolves to `false`.  The code satisfies this for every
backend behaviour and for protected storage reads — the first conjunct shows
any run whose read of the cached strategy key returns resolves to a
boolean — but the `localStorage.getItem(STORAGE_KEYS.STRATEGY)` call sits
*above* the try block (unlike every other storage access in the class, which
is wrapped), so a storage layer whose read throws makes `autoReconnect`
reject with that error instead of resolving `false`: the second conjunct
evaluates the code at such an input. -/
theorem autoReconnect_rejects_when_strategy_read_throws :
    (∀ (renv : StorageReadEnv) (probe cenv : StrategyCallEnv)
       (senv : StorageEnv) (w : MgrWorld) (v : Option String),
       renv.readStrategy = .ok v →
       ∃ b, (WalletManager.autoReconnectOp renv probe cenv senv w).1 = .ok b) ∧
    (WalletManager.autoReconnectOp
       ⟨.error "storage unavailable", .ok (some "addr1")⟩
       envAllOk envAllOk senvOk wConnected).1 = .error "storage unavailable" := by
  constructor
  · intro renv probe cenv senv w v hv
    unfold WalletManager.autoReconnectOp
    simp only [hv]
    split
    · split
      · exact ⟨false, rfl⟩
      · exact tail_resolves_bool ..
    · exact ⟨false, rfl⟩
  · rfl

/-- Witness for C4's universally quantified conjunct at a concrete
environment (empty cache, no throw): the call resolves to a boolean. -/
theorem autoReconnect_rejects_when_strategy_read_throws_witness :
    ∃ b, (WalletManager.autoReconnectOp ⟨.ok none, .ok none⟩ envAllOk envAllOk
      senvOk wConnected).1 = .ok b :=
  autoReconnect_rejects_when_strategy_read_throws.1 _ _ _ _ _ none rfl

/-- Claim C5: with working storage, after a successful `connect` the session
cache holds exactly the connected strategy's id and the connected address
(which also populate the new state); and after a `disconnect` that completed
its work on an active strategy, both cache entries are absent. -/
theorem cache_roundtrip (env : StrategyCallEnv) (senv : StorageEnv)
    (w : MgrWorld) (strat : StrategyRef) (a : String)
    (hw1 : senv.strategyWriteOk = true) (hw2 : senv.addressWriteOk = true)
    (hs : w.mgr.currentStrategy = some strat) :
    (strat.id ≠ "" → env.addrRes = .ok a → a ≠ "" →
      connectFirstError env = none →
      (WalletManager.connectOp env senv w).1 = .ok () ∧
      (WalletManager.connectOp env senv w).2.cache =
        { strategy := some strat.id, address := some a } ∧
      (WalletManager.connectOp env senv w).2.mgr.state.address = some a ∧
      (WalletManager.connectOp env senv w).2.mgr.state.strategy = some strat) ∧
    (env.disconnectRes = .ok () →
      (WalletManager.disconnectOp env senv w).2.cache =
        { strategy := none, address := none }) := by
  constructor
  · intro hid ha hane hfe
    cases hc : env.connectRes with
    | error e1 => simp [connectFirstError, hc] at hfe
    | ok u =>
      cases hp : env.pkRes with
      | error e1 => simp [connectFirstError, hc, ha, hp] at hfe
      | ok pk =>
        cases hm : env.permsRes with
        | error e1 => simp [connectFirstError, hc, ha, hp, hm] at hfe
        | ok perms =>
          unfold WalletManager.connectOp
          rw [hs, hc, ha, hp, hm]
          refine ⟨rfl, ?_, rfl, rfl⟩
          simp [cacheStrategy, cacheAddress, truthy, hw1, hw2, hid, hane]
  · intro hd
    unfold WalletManager.disconnectOp
    rw [hs, hd]
    simp [cacheStrategy, cacheAddress, truthy, hw1, hw2]

/-- A world with MetaMask selected but not yet connected. -/
def wSelected : MgrWorld :=
  { mgr := { freshManager with
      currentStrategy := some stratMM,
      state := { freshManager.state with strategy := some stratMM } },
    cache := { strategy := none, address := none } }

/-- Witness for C5: a concrete successful connect populates both cache
entries, a concrete completed disconnect removes both. -/
theorem cache_roundtrip_witness :
    (WalletManager.connectOp envAllOk senvOk wSelected).2.cache =
      { strategy := some "metamask", address := some "addr1" } ∧
    (WalletManager.disconnectOp envAllOk senvOk wConnected).2.cache =
      { strategy := none, address := none } :=
  ⟨((cache_roundtrip envAllOk senvOk wSelected stratMM "addr1" rfl rfl rfl).1
      (by decide) rfl (by decide) rfl).2.1,
   (cache_roundtrip envAllOk senvOk wConnected stratMM "addr1" rfl rfl rfl).2 rfl⟩

theorem getOrCreate_of_get (m : WalletManager) (p : String) (s : StrategyRef)
    (h : mapGet m.strategies ("wauth-" ++ p) = some s) :
    m.getOrCreateWAuthStrategy p = (s, m) := by
  unfold WalletManager.getOrCreateWAuthStrategy
  rw [h]

theorem getOrCreate_fst_of_get (m : WalletManager) (p : String) (s : StrategyRef)
    (h : mapGet m.strategies ("wauth-" ++ p) = some s) :
    (m.getOrCreateWAuthStrategy p).1 = s := by
  rw [getOrCreate_of_get m p s h]

theorem getOrCreate_idem (m : WalletManager) (p : String) :
    (m.getOrCreateWAuthStrategy p).2.getOrCreateWAuthStrategy p =
      m.getOrCreateWAuthStrategy p := by
  cases h : mapGet m.strategies ("wauth-" ++ p) with
  | some s =>
    rw [getOrCreate_of_get m p s h]
    exact getOrCreate_of_get m p s h
  | none =>
    have h1 : m.getOrCreateWAuthStrategy p =
        (⟨"wauth-" ++ p, m.nextInst⟩,
         { m with strategies := mapSet m.strategies ("wauth-" ++ p)
                     ⟨"wauth-" ++ p, m.nextInst⟩,
                  nextInst := m.nextInst + 1 }) := by
      unfold WalletManager.getOrCreateWAuthStrategy
      rw [h]
    rw [h1]
    exact getOrCreate_of_get _ p _ (mapGet_mapSet_self ..)

/-- Claim C6: resolving the same WAuth strategy id from the registry twice
yields the identical instance (and leaves the registry untouched the second
time), and a second `setStrategy` with the same id leaves the active
strategy reference unchanged. -/
theorem strategy_instantiation_idempotent (m : WalletManager)
    (provider sid : String) :
    ((m.getOrCreateWAuthStrategy provider).2.getOrCreateWAuthStrategy provider).1 =
      (m.getOrCreateWAuthStrategy provider).1 ∧
    ((m.getOrCreateWAuthStrategy provider).2.getOrCreateWAuthStrategy provider).2 =
      (m.getOrCreateWAuthStrategy provider).2 ∧
    ((m.setStrategy sid).2.setStrategy sid).2.currentStrategy =
      (m.setStrategy sid).2.currentStrategy := by
  refine ⟨congrArg Prod.fst (getOrCreate_idem m provider),
          congrArg Prod.snd (getOrCreate_idem m provider), ?_⟩
  cases hb : startsWithWauth sid with
  | true =>
    unfold WalletManager.setStrategy
    rw [hb]
    simp only [if_true]
    exact congrArg some
      (getOrCreate_fst_of_get _ (stripWauth sid)
        (m.getOrCreateWAuthStrategy (stripWauth sid)).1
        (getOrCreate_strategies_get m (stripWauth sid)))
  | false =>
    unfold WalletManager.setStrategy
    rw [hb]
    simp only [Bool.false_eq_true, if_false]
    cases hg : mapGet m.strategies sid with
    | some strat => simp [hg]
    | none => simp [hg, hb]

theorem forEachAux_no_splice (act : Nat → Option Nat) (arr : List Nat)
    (h : ∀ id ∈ arr, act id = none) :
    ∀ (r k : Nat), forEachAux act arr k r = ((arr.drop k).take r, arr) := by
  intro r
  induction r with
  | zero => intro k; simp [forEachAux]
  | succ r ih =>
    intro k
    unfold forEachAux
    split
    · next hk =>
      have hid : act arr[k] = none := h _ (arr.getElem_mem hk)
      have hsp : spliceStep act (arr.get ⟨k, hk⟩) arr = arr := by
        simp [spliceStep, hid]
      rw [hsp, ih (k + 1), List.drop_eq_getElem_cons hk, List.take_succ_cons]
      simp
    · next hk =>
      rw [ih (k + 1), List.drop_eq_nil_of_le (Nat.le_of_not_lt hk),
          List.drop_eq_nil_of_le (by omega)]
      simp

theorem notifyListeners_no_splice (act : Nat → Option Nat) (arr : List Nat)
    (h : ∀ id ∈ arr, act id = none) :
    notifyListeners act arr = (arr, arr) := by
  unfold notifyListeners
  rw [forEachAux_no_splice act arr h arr.length 0]
  simp

/-- A listener environment in which listener C (token 3) unsubscribes
listener B (token 2) from within its callback. -/
def actUnsubscribesB : Nat → Option Nat :=
  fun id => if id == 3 then some 2 else none

/-- A listener environment in which no callback unsubscribes anything. -/
def actPassive : Nat → Option Nat := fun _ => none

/-- Claim C7: a notification round calls every subscribed listener in
subscription order (when no callback mutates the list); in the concrete
A, B, C scenario where C's callback unsubscribes B, the round still calls
A, B, C in order and terminates normally (no structural hazard), and B,
having been removed, receives no notification in any subsequent round. -/
theorem observers_notified_in_order_and_unsubscribe_safe :
    (∀ (act : Nat → Option Nat) (arr : List Nat),
      (∀ id ∈ arr, act id = none) → notifyListeners act arr = (arr, arr)) ∧
    notifyListeners actUnsubscribesB [1, 2, 3] = ([1, 2, 3], [1, 3]) ∧
    notifyListeners actPassive [1, 3] = ([1, 3], [1, 3]) ∧
    2 ∉ (notifyListeners actPassive
          (notifyListeners actUnsubscribesB [1, 2, 3]).2).1 :=
  ⟨fun act arr h => notifyListeners_no_splice act arr h,
   by decide, by decide, by decide⟩

/-- Witness for C7's universally quantified conjunct at a concrete
two-listener list with passive callbacks. -/
theorem observers_notified_in_order_witness :
    notifyListeners actPassive [5, 6] = ([5, 6], [5, 6]) :=
  observers_notified_in_order_and_unsubscribe_safe.1 actPassive [5, 6]
    (fun _ _ => rfl)

/-- Counterexample to claim C8 as stated: `"wauth-github"` names no
registered strategy on a fresh manager, yet `setStrategy` returns `true`
(not `false`) and changes the active strategy reference (not a no-op),
because any `wauth-`-prefixed id is lazily instantiated on selection. -/
theorem setStrategy_unregistered_wauth_counterexample :
    mapGet freshManager.strategies "wauth-github" = none ∧
    freshManager.currentStrategy = none ∧
    (freshManager.setStrategy "wauth-github").1 = true ∧
    (freshManager.setStrategy "wauth-github").2.currentStrategy =
      some ⟨"wauth-github", 2⟩ := by
  refine ⟨rfl, rfl, ?_, ?_⟩ <;> decide

/-- Claim C8 amended: for every identifier that is not in the registry *and
does not carry the `wauth-` namespace prefix* (wauth ids are always
instantiable on demand), `setStrategy` returns `false` and is a no-op on the
whole manager — active reference and ConnectionState included — rather than
throwing. -/
theorem setStrategy_unknown_id_noop (m : WalletManager) (sid : String)
    (h1 : mapGet m.strategies sid = none) (h2 : startsWithWauth sid = false) :
    m.setStrategy sid = (false, m) := by
  unfold WalletManager.setStrategy
  rw [h2, h1]
  simp

/-- Witness for the amended C8 at a concrete unknown identifier. -/
theorem setStrategy_unknown_id_noop_witness :
    freshManager.setStrategy "unknown-wallet" = (false, freshManager) :=
  setStrategy_unknown_id_noop freshManager "unknown-wallet" (by decide) (by decide)

/-- Claim C9: `createAoSigner` is a pure total function that passes a
callable value through unchanged, wraps a present non-callable object
through the data-item-signer adapter (when the adapter itself does not
throw), and yields no signer for `null`, `undefined` and every other
shape. -/
theorem createAoSigner_normalizes (wrapThrows : Nat → Bool) (raw : JsValue) :
    (∀ f, raw = .func f → createAoSigner wrapThrows raw = .direct f) ∧
    (∀ o, raw = .obj o → wrapThrows o = false →
      createAoSigner wrapThrows raw = .wrapped o) ∧
    ((∀ f, raw ≠ .func f) → (∀ o, raw ≠ .obj o) →
      createAoSigner wrapThrows raw = .noSigner) := by
  refine ⟨?_, ?_, ?_⟩
  · intro f hf
    subst hf
    rfl
  · intro o ho hw
    subst ho
    simp [createAoSigner, jsFalsy, hw]
  · intro hf ho
    cases raw with
    | nullV => rfl
    | undefinedV => rfl
    | func f => exact absurd rfl (hf f)
    | obj o => exact absurd rfl (ho o)
    | str s =>
      unfold createAoSigner
      split <;> rfl
    | num n =>
      unfold createAoSigner
      split <;> rfl
    | boolV b =>
      unfold createAoSigner
      split <;> rfl

/-- Witness for C9 at concrete inputs of each shape. -/
theorem createAoSigner_normalizes_witness :
    createAoSigner (fun _ => false) (.func 7) = .direct 7 ∧
    createAoSigner (fun _ => false) (.obj 9) = .wrapped 9 ∧
    createAoSigner (fun _ => false) .nullV = .noSigner :=
  ⟨(createAoSigner_normalizes (fun _ => false) (.func 7)).1 7 rfl,
   (createAoSigner_normalizes (fun _ => false) (.obj 9)).2.1 9 rfl rfl,
   (createAoSigner_normalizes (fun _ => false) .nullV).2.2
     (fun _ h => JsValue.noConfusion h) (fun _ h => JsValue.noConfusion h)⟩

theorem heapLookup_lt (recs : List (Nat × WalletConnectionState)) (a : Nat)
    (s : WalletConnectionState) (n : Nat) (hw : ∀ p ∈ recs, p.1 < n)
    (hget : heapLookup a recs = some s) : a < n := by
  induction recs with
  | nil => simp [heapLookup] at hget
  | cons p rest ih =>
    obtain ⟨a1, s1⟩ := p
    cases hb : a1 == a with
    | true =>
      have ha : a1 = a := eq_of_beq hb
      subst ha
      exact hw _ (List.mem_cons_self ..)
    | false =>
      simp only [heapLookup, hb] at hget
      exact ih (fun q hq => hw q (List.mem_cons_of_mem _ hq)) hget

/-- Claim C10: `getState` returns a freshly allocated snapshot at an address
distinct from the manager's internal state record, carrying the same field
values; overwriting the snapshot's fields afterwards (any reassignment)
leaves the record at the manager's internal address — the one observers'
notifications are built from — unchanged. -/
theorem getState_snapshot_is_fresh (h : Heap) (a : Nat)
    (s : WalletConnectionState) (hwf : h.wf) (hget : heapGet h a = some s) :
    (getStateH h a).1 ≠ a ∧
    heapGet (getStateH h a).2 (getStateH h a).1 = some s ∧
    heapGet (getStateH h a).2 a = some s ∧
    ∀ s2, heapGet (heapSet (getStateH h a).2 (getStateH h a).1 s2) a = some s := by
  have halt : a < h.next := heapLookup_lt h.recs a s h.next hwf hget
  have hne : (h.next == a) = false := by
    simp only [beq_eq_false_iff_ne]
    omega
  have hg : getStateH h a = (h.next, ⟨(h.next, s) :: h.recs, h.next + 1⟩) := by
    unfold getStateH heapGet at *
    rw [hget]
  rw [hg]
  refine ⟨by omega, ?_, ?_, ?_⟩
  · simp [heapGet, heapLookup]
  · simp only [heapGet, heapLookup, hne]
    exact hget
  · intro s2
    simp only [heapGet, heapSet, heapLookup, hne]
    exact hget

/-- A concrete one-record heap for the C10 witness. -/
def heap10 : Heap :=
  ⟨[(0, { connected := true, address := some "addr1", publicKey := some "pk1",
          permissions := [], strategy := none })], 1⟩

/-- Witness for C10: on a concrete heap, overwriting the snapshot returned
by `getState` with the disconnected default leaves the manager's internal
record intact. -/
theorem getState_snapshot_is_fresh_witness :
    heapGet (heapSet (getStateH heap10 0).2 (getStateH heap10 0).1
        disconnectedState) 0 =
      some { connected := true, address := some "addr1", publicKey := some "pk1",
             permissions := [], strategy := none } :=
  (getState_snapshot_is_fresh heap10 0 _
    (by intro p hp; simp [heap10] at hp; subst hp; decide) rfl).2.2.2
    disconnectedState

end AoWalletKit
